import Mathlib

set_option maxRecDepth 8000

/-!
Verification of the invoice-splitting core of the xero-contact-manager
repository: a shallow embedding of the billing-period resolver, the
pro-rata split calculator, the line-item scaler and the account-number
grammar (src/constants.py, src/invoice_splitter.py), together with
theorems settling the frozen specification claims.

Modelling conventions:
 - Python `datetime.date` values are modelled by the `Date` structure;
   the constructor `date(y, m, d)` (which raises `ValueError` on an
   invalid triple) is modelled by `mkDate : Nat -> Nat -> Nat -> Option Date`.
   Python compares dates chronologically; we model comparison through the
   proleptic-Gregorian ordinal (`toOrdinal`), which agrees with Python on
   every constructible date.
 - Python `float` money arithmetic is modelled exactly over `Rat`.
 - A Python function body that may raise, inside a `try` block whose
   handler returns a fallback, is modelled as an `Option`-valued body
   composed with `Option.getD fallback`.
-/

namespace XeroSplit

/-- Proleptic Gregorian leap-year test, as used by Python `datetime`. -/
def isLeap (y : Nat) : Bool :=
  (y % 4 == 0 && y % 100 != 0) || (y % 400 == 0)

/-- Number of days in month `m` of year `y` (months are 1-based). -/
def daysInMonth (y m : Nat) : Nat :=
  if m = 2 then (if isLeap y then 29 else 28)
  else if m = 4 ∨ m = 6 ∨ m = 9 ∨ m = 11 then 30
  else 31

/-- A calendar date, mirroring Python `datetime.date` fields. -/
structure Date where
  year : Nat
  month : Nat
  day : Nat
deriving DecidableEq, Repr

/-- Validity of a date triple: exactly the condition under which Python
`date(year, month, day)` constructs a value instead of raising. -/
def validDate (dt : Date) : Bool :=
  1 ≤ dt.year && dt.year ≤ 9999 &&
  1 ≤ dt.month && dt.month ≤ 12 &&
  1 ≤ dt.day && dt.day ≤ daysInMonth dt.year dt.month

/-- Model of the `date(y, m, d)` constructor: `none` models the
`ValueError` raised on an invalid triple. -/
def mkDate (y m d : Nat) : Option Date :=
  if validDate ⟨y, m, d⟩ then some ⟨y, m, d⟩ else none

/-- Days in the years strictly before year `y` (proleptic Gregorian),
as in Python `datetime`'s ordinal. -/
def daysBeforeYear (y : Nat) : Nat :=
  365 * (y - 1) + (y - 1) / 4 - (y - 1) / 100 + (y - 1) / 400

/-- Days in year `y` strictly before month `m`. -/
def daysBeforeMonth (y m : Nat) : Nat :=
  (List.range (m - 1)).foldl (fun acc i => acc + daysInMonth y (i + 1)) 0

/-- Proleptic Gregorian ordinal of a date; `toOrdinal ⟨1,1,1⟩ = 1`,
matching Python `date.toordinal`. -/
def toOrdinal (dt : Date) : Nat :=
  daysBeforeYear dt.year + daysBeforeMonth dt.year dt.month + dt.day

/-- Chronological `<=` on dates (Python date comparison). -/
def dle (a b : Date) : Bool := toOrdinal a ≤ toOrdinal b

/-- Chronological `<` on dates (Python date comparison). -/
def dlt (a b : Date) : Bool := toOrdinal a < toOrdinal b

/-- Difference in days, `(a - b).days` on Python dates. -/
def subDays (a b : Date) : Int := (toOrdinal a : Int) - (toOrdinal b : Int)

/-- The next calendar day (model of `d + timedelta(days=1)`). -/
def succDate (dt : Date) : Date :=
  if dt.day < daysInMonth dt.year dt.month then ⟨dt.year, dt.month, dt.day + 1⟩
  else if dt.month < 12 then ⟨dt.year, dt.month + 1, 1⟩
  else ⟨dt.year + 1, 1, 1⟩

/-- The previous calendar day (model of `d - timedelta(days=1)`). -/
def predDate (dt : Date) : Date :=
  if 1 < dt.day then ⟨dt.year, dt.month, dt.day - 1⟩
  else if 1 < dt.month then ⟨dt.year, dt.month - 1, daysInMonth dt.year (dt.month - 1)⟩
  else ⟨dt.year - 1, 12, 31⟩

/-- Model of `d + timedelta(days=n)`. -/
def addDays (dt : Date) (n : Nat) : Date := succDate^[n] dt

/-! Billing-period resolution:
Embedding of `XeroInvoiceSplitter.calculate_invoice_period`
(src/invoice_splitter.py lines 226-316).  The whole body sits inside a
`try` whose handler returns the fallback `(invoice_date, invoice_date +
timedelta(days=89))`; `none` from the body models an exception reaching
the handler. -/

/-- Monthly branch of `calculate_invoice_period` (lines 241-262). -/
def monthlyBody (idate : Date) (start_day : Nat) : Option (Date × Date) := do
  let period_start ←
    if start_day ≤ idate.day then
      -- invoice_date.replace(day=start_day)
      mkDate idate.year idate.month start_day
    else if idate.month = 1 then
      -- previous month with December/January year rollover
      mkDate (idate.year - 1) 12 start_day
    else
      mkDate idate.year (idate.month - 1) start_day
  let next_period_start ←
    if period_start.month = 12 then
      mkDate (period_start.year + 1) 1 start_day
    else
      mkDate period_start.year (period_start.month + 1) start_day
  pure (period_start, predDate next_period_start)

/-- One pass of the quarterly anchor loop (lines 273-282 resp. 286-297):
`y1` is the year used for the anchor and the `quarter_month + 3`
candidate, `y2` the year used in the January wrap branch.  The outer
`none` models an exception escaping the loop; `some none` is loop
completion without a match; `some (some (qm, qs, nqs))` is a `break`
with the matched anchor month and the two anchor dates. -/
def quarterScan (y1 y2 start_day : Nat) (idate : Date) :
    List Nat → Option (Option (Nat × Date × Date))
  | [] => some none
  | qm :: rest =>
    match mkDate y1 qm start_day with
    | none => none
    | some quarter_start =>
      -- note: the source guard is `quarter_month <= 10`, so for qm = 10 this
      -- attempts date(y1, 13, start_day)
      match (if qm ≤ 10 then mkDate y1 (qm + 3) start_day
             else mkDate y2 1 start_day) with
      | none => none
      | some next_quarter_start =>
        if dle quarter_start idate && dlt idate next_quarter_start then
          some (some (qm, quarter_start, next_quarter_start))
        else
          quarterScan y1 y2 start_day idate rest

/-- Quarterly branch of `calculate_invoice_period` (lines 264-306). -/
def quarterlyBody (idate : Date) (start_day : Nat) : Option (Date × Date) :=
  match quarterScan idate.year (idate.year + 1) start_day idate [1, 4, 7, 10] with
  | none => none
  | some (some (qm, _, _)) =>
    -- current-year match: period recomputed from the anchor month (lines 298-306)
    match mkDate idate.year qm start_day with
    | none => none
    | some period_start =>
      match (if qm ≤ 10 then mkDate idate.year (qm + 3) start_day
             else mkDate (idate.year + 1) 1 start_day) with
      | none => none
      | some next_quarter_start => some (period_start, predDate next_quarter_start)
  | some none =>
    -- previous-year search (lines 285-297)
    match quarterScan (idate.year - 1) idate.year start_day idate [1, 4, 7, 10] with
    | none => none
    | some (some (_, quarter_start, next_quarter_start)) =>
      some (quarter_start, predDate next_quarter_start)
    | some none =>
      -- period_start never bound: NameError at the return statement
      none

/-- Body of `calculate_invoice_period` before the exception handler:
dispatch on the schedule frequency; an unknown frequency raises
(`raise ValueError(...)`, line 309), modelled as `none`. -/
def periodBody (idate : Date) (frequency : String) (start_day : Nat) :
    Option (Date × Date) :=
  if frequency = "monthly" then monthlyBody idate start_day
  else if frequency = "quarterly" then quarterlyBody idate start_day
  else none

/-- Embedding of `XeroInvoiceSplitter.calculate_invoice_period`: the `try` body with
the `except` fallback `(invoice_date, invoice_date + timedelta(days=89))`
(lines 313-316). -/
def calculate_invoice_period (idate : Date) (frequency : String) (start_day : Nat) :
    Date × Date :=
  (periodBody idate frequency start_day).getD (idate, addDays idate 89)

/-! Pro-rata split calculator:
Embedding of the validation and arithmetic core of
`XeroInvoiceSplitter.calculate_split` (src/invoice_splitter.py lines
454-492): the computation from the resolved period, the two supplied
dates and the invoice total onward.  Money is modelled exactly in `Rat`. -/

/-- The three distinct validation failures of `calculate_split`, one per
error message (lines 454-470). -/
inductive SplitError where
  /-- error: Vacate date must be within invoice period. -/
  | vacateOutOfPeriod : SplitError
  /-- error: Move-in date must be within invoice period. -/
  | moveInOutOfPeriod : SplitError
  /-- error: Move-in date must be after vacate date. -/
  | orderingViolation : SplitError
deriving DecidableEq, Repr

/-- The numeric payload of a successful split (lines 472-524). -/
structure SplitResult where
  total_days : Int
  daily_rate : Rat
  previous_days : Int
  void_days : Int
  new_days : Int
  previous_amount : Rat
  void_amount : Rat
  new_amount : Rat
deriving DecidableEq, Repr

/-- Round up to the nearest 0.10 currency unit:
`math.ceil(amount * 10) / 10` (lines 490-492). -/
def ceil10 (q : Rat) : Rat := ((q * 10).ceil : Rat) / 10

/-- Validation and arithmetic of `XeroInvoiceSplitter.calculate_split`
from the resolved period onward (lines 454-492). -/
def calculate_split (total_amount : Rat) (period_start period_end : Date)
    (vacate_date move_in_date : Date) : Except SplitError SplitResult :=
  if dlt vacate_date period_start || dlt period_end vacate_date then
    .error .vacateOutOfPeriod
  else if dlt move_in_date period_start || dlt period_end move_in_date then
    .error .moveInOutOfPeriod
  else if dle move_in_date vacate_date then
    .error .orderingViolation
  else
    let total_days := subDays period_end period_start + 1
    let previous_days := subDays vacate_date period_start + 1
    let void_days := subDays move_in_date vacate_date - 1
    let new_days := subDays period_end move_in_date + 1
    let daily_rate := total_amount / (total_days : Rat)
    .ok {
      total_days := total_days
      daily_rate := daily_rate
      previous_days := previous_days
      void_days := void_days
      new_days := new_days
      previous_amount := ceil10 (daily_rate * (previous_days : Rat))
      void_amount := ceil10 (daily_rate * (void_days : Rat))
      new_amount := ceil10 (daily_rate * (new_days : Rat))
    }

/-! Line-item scaling:
Embedding of the line-item loops of
`XeroInvoiceSplitter.modify_existing_invoice` (lines 558-585) and
`XeroInvoiceSplitter.create_new_invoice` (lines 636-662).  Python dict
fields that the loops read with a `.get` default are modelled with the
default folded in (`Description`, `AccountCode`, `TaxType` default to
the empty string); `Quantity` keeps its `.get('Quantity', 1)` default
explicitly since it feeds a division.  The four optional fields are
copied only when truthy in the source, so each is modelled with its
Python truthiness: `none` (absent), the empty string, the empty list
and the number zero are all falsy. -/

/-- A source invoice line item as the two scaling loops read it. -/
structure LineItem where
  lineItemID : String
  description : String
  quantity : Option Rat
  accountCode : String
  taxType : String
  lineAmount : Rat
  itemCode : Option String
  taxAmount : Option Rat
  discountRate : Option Rat
  tracking : List String
deriving DecidableEq, Repr

/-- A scaled output line item; `lineItemID = none` for the freshly
created invoice, which carries no `LineItemID` key. -/
structure OutLineItem where
  lineItemID : Option String
  description : String
  quantity : Rat
  unitAmount : Rat
  accountCode : String
  taxType : String
  lineAmount : Rat
  itemCode : Option String
  taxAmount : Option Rat
  discountRate : Option Rat
  tracking : List String
deriving DecidableEq, Repr

/-- Python truthiness of an optional string field. -/
def truthyStr : Option String → Bool
  | none => false
  | some s => s ≠ ""

/-- Python truthiness of an optional numeric field. -/
def truthyRat : Option Rat → Bool
  | none => false
  | some q => q ≠ 0

/-- Round-half-to-even to an integer, the tie rule of Python `round`. -/
def roundHalfEven (x : Rat) : Int :=
  let f := x.floor
  if x - (f : Rat) < 1 / 2 then f
  else if (1 : Rat) / 2 < x - (f : Rat) then f + 1
  else if f % 2 = 0 then f else f + 1

/-- Model of `round(q, 2)`: round to 2 decimal places, ties to even. -/
def round2 (q : Rat) : Rat := ((roundHalfEven (q * 100)) : Rat) / 100

/-- One iteration of the `modify_existing_invoice` line-item loop
(lines 563-585). -/
def modifyLineItem (scale_factor : Rat) (period_description : String)
    (li : LineItem) : OutLineItem :=
  let new_line_amount := round2 (li.lineAmount * scale_factor)
  { lineItemID := some li.lineItemID
    description := li.description ++ " (" ++ period_description ++ ")"
    quantity := li.quantity.getD 1
    unitAmount := round2 (new_line_amount / li.quantity.getD 1)
    accountCode := li.accountCode
    taxType := li.taxType
    lineAmount := new_line_amount
    itemCode := if truthyStr li.itemCode then li.itemCode else none
    taxAmount := if truthyRat li.taxAmount then li.taxAmount else none
    discountRate := if truthyRat li.discountRate then li.discountRate else none
    tracking := if li.tracking ≠ [] then li.tracking else [] }

/-- One iteration of the `create_new_invoice` line-item loop
(lines 641-662). -/
def createLineItem (scale_factor : Rat) (period_description : String)
    (li : LineItem) : OutLineItem :=
  let new_line_amount := round2 (li.lineAmount * scale_factor)
  { lineItemID := none
    description := li.description ++ " (" ++ period_description ++ ")"
    quantity := li.quantity.getD 1
    unitAmount := round2 (new_line_amount / li.quantity.getD 1)
    accountCode := li.accountCode
    taxType := li.taxType
    lineAmount := new_line_amount
    itemCode := if truthyStr li.itemCode then li.itemCode else none
    taxAmount := if truthyRat li.taxAmount then li.taxAmount else none
    discountRate := if truthyRat li.discountRate then li.discountRate else none
    tracking := if li.tracking ≠ [] then li.tracking else [] }

/-- Line-item set produced by `modify_existing_invoice` for the reduced
previous-occupier invoice, with `scale_factor = new_amount / original_total`
(lines 559-585). -/
def modify_existing_invoice_items (items : List LineItem)
    (original_total new_amount : Rat) (period_description : String) :
    List OutLineItem :=
  items.map (modifyLineItem (new_amount / original_total) period_description)

/-- Line-item set produced by `create_new_invoice` for the new-occupier
invoice, with `scale_factor = new_amount / original_total`
(lines 636-662). -/
def create_new_invoice_items (items : List LineItem)
    (original_total new_amount : Rat) (period_description : String) :
    List OutLineItem :=
  items.map (createLineItem (new_amount / original_total) period_description)

/-! Account-number grammar:
Embedding of `parse_account_number` and `increment_account_sequence`
(src/constants.py lines 219-274).  The pattern is
`^([A-Z]{3}\d{5})(\d)(/[A-Z0-9]+)$` matched with `re.match`; the final
`$` also matches just before one trailing newline, so the matcher first
strips at most one trailing newline.  `\d` is modelled as an ASCII
digit (account numbers are ASCII). -/

/-- ASCII uppercase letter, the character class `[A-Z]`. -/
def isUpperAZ (c : Char) : Bool := 'A' ≤ c && c ≤ 'Z'

/-- ASCII digit, the character class `\d` on ASCII input. -/
def isDigit09 (c : Char) : Bool := '0' ≤ c && c ≤ '9'

/-- The character class `[A-Z0-9]`. -/
def isUpperOrDigit (c : Char) : Bool := isUpperAZ c || isDigit09 c

/-- Strip one trailing newline if present: the positions at which the
`$` anchor of the pattern can match. -/
def stripNl (cs : List Char) : List Char :=
  if cs.getLast? = some '\n' then cs.dropLast else cs

/-- Core of the regex match on the newline-stripped character list:
three uppercase letters and five digits (group 1), one digit (group 2),
then a slash and one or more uppercase-or-digit characters (group 3). -/
def parseCore (cs : List Char) : Option (String × String × String) :=
  match cs with
  | a1 :: a2 :: a3 :: d1 :: d2 :: d3 :: d4 :: d5 :: d9 :: sl :: rest =>
    if isUpperAZ a1 && isUpperAZ a2 && isUpperAZ a3 &&
       isDigit09 d1 && isDigit09 d2 && isDigit09 d3 && isDigit09 d4 && isDigit09 d5 &&
       isDigit09 d9 && sl = '/' && rest ≠ [] && rest.all isUpperOrDigit then
      some (⟨[a1, a2, a3, d1, d2, d3, d4, d5]⟩, ⟨[d9]⟩, ⟨'/' :: rest⟩)
    else none
  | _ => none

/-- Embedding of `parse_account_number` (src/constants.py lines 227-247): the regex
match returning `(base_code, sequence_digit, contact_code)`, or `None`. -/
def parse_account_number (s : String) : Option (String × String × String) :=
  parseCore (stripNl s.toList)

/-- Numeric value of an ASCII digit character, `int(c)`. -/
def digitVal (c : Char) : Nat := c.toNat - '0'.toNat

/-- Embedding of `increment_account_sequence` (src/constants.py lines 250-274):
re-parse, add one to the sequence digit, rebuild the string with
`str(int(sequence_digit) + 1)`. -/
def increment_account_sequence (s : String) : Option String :=
  match parse_account_number s with
  | none => none
  | some (base_code, sequence_digit, contact_code) =>
    let n := (sequence_digit.toList.headD '0' |> digitVal) + 1
    some (base_code ++ Nat.repr n ++ contact_code)

/-- Structural description, following the spec's wording as amended, of
the strings the account-number grammar accepts: at least ten characters,
of which the first three are uppercase letters, the next five are
digits, then one more digit, a slash, and one or more uppercase-or-digit
characters reaching the end. -/
def specFormat (cs : List Char) : Bool :=
  decide (10 ≤ cs.length) &&
  (cs.take 3).all isUpperAZ &&
  ((cs.drop 3).take 5).all isDigit09 &&
  (match cs.drop 8 with
   | d :: s :: rest =>
     isDigit09 d && decide (s = '/') && decide (rest ≠ []) && rest.all isUpperOrDigit
   | _ => false)

/-- A sample source line item for concrete line-item scaling checks: its
`TaxAmount` is present but zero, hence falsy in Python, and its optional
item code, discount rate and tracking are absent. -/
def sampleItem : LineItem :=
  ⟨"li-1", "Stair cleaning", some 1, "200", "OUTPUT2", 280, none, some 0, none, []⟩

/-! The two billing-schedule tables:
`BILLING_SCHEDULES` in src/constants.py (lines 80-195) and the inline
`BILLING_SCHEDULES` in `XeroInvoiceSplitter.get_contact_billing_info`
(src/invoice_splitter.py lines 181-198). -/

/-- An entry of the constants.py table: frequency, start day, period
length in days (the last two are `None` for non-billable codes). -/
structure CSched where
  frequency : String
  start_day : Option Nat
  period_days : Option Nat
deriving DecidableEq, Repr

/-- An entry of the splitter's inline table: frequency, start month,
start day. -/
structure SSched where
  frequency : String
  start_month : Nat
  start_day : Nat
deriving DecidableEq, Repr

/-- The `BILLING_SCHEDULES` table of src/constants.py (descriptions elided). -/
def constantsSchedules : List (String × CSched) :=
  [("/1A", ⟨"quarterly", some 1, some 90⟩),
   ("/2A", ⟨"quarterly", some 5, some 90⟩),
   ("/1B", ⟨"quarterly", some 12, some 90⟩),
   ("/3A", ⟨"quarterly", some 14, some 90⟩),
   ("/3B", ⟨"monthly", some 1, some 30⟩),
   ("/3C", ⟨"monthly", some 16, some 30⟩),
   ("/3D", ⟨"monthly", some 23, some 30⟩),
   ("/1C", ⟨"quarterly", some 1, some 90⟩),
   ("/A", ⟨"quarterly", some 1, some 90⟩),
   ("/B", ⟨"quarterly", some 1, some 90⟩),
   ("/D", ⟨"quarterly", some 1, some 90⟩),
   ("/P", ⟨"irregular", none, none⟩),
   ("/Q", ⟨"one-off", none, none⟩),
   ("/R", ⟨"none", none, none⟩),
   ("/S", ⟨"none", none, none⟩),
   ("/CR", ⟨"quarterly", some 1, some 90⟩),
   ("/LH", ⟨"quarterly", some 1, some 90⟩)]

/-- The inline `BILLING_SCHEDULES` of `get_contact_billing_info`. -/
def splitterSchedules : List (String × SSched) :=
  [("/1A", ⟨"quarterly", 1, 1⟩),
   ("/2A", ⟨"quarterly", 1, 5⟩),
   ("/1B", ⟨"quarterly", 1, 12⟩),
   ("/3A", ⟨"quarterly", 1, 14⟩),
   ("/3B", ⟨"monthly", 1, 1⟩),
   ("/3C", ⟨"monthly", 1, 16⟩),
   ("/3D", ⟨"monthly", 1, 23⟩),
   ("/1C", ⟨"quarterly", 1, 1⟩),
   ("/A", ⟨"quarterly", 1, 1⟩),
   ("/B", ⟨"quarterly", 1, 1⟩),
   ("/D", ⟨"quarterly", 1, 1⟩)]

/-- Dictionary lookup `BILLING_SCHEDULES.get(code)` on the constants.py
table. -/
def constantsLookup (code : String) : Option CSched :=
  (constantsSchedules.lookup code)

/-- Dictionary lookup `BILLING_SCHEDULES.get(code)` on the splitter's
inline table. -/
def splitterLookup (code : String) : Option SSched :=
  (splitterSchedules.lookup code)

/-- A splitter-table entry agrees with the constants table on frequency
and start day. -/
def agreesOn (e : String × SSched) : Bool :=
  match constantsLookup e.1 with
  | some c => c.frequency == e.2.frequency && c.start_day == some e.2.start_day
  | none => false

/-! Theorems settling the claims. -/

deriving instance DecidableEq for Except

/-- Evaluation lemma for the concrete February 2025 split scenario used
by several witnesses: period 2025-02-01 to 2025-02-28 (28 days), vacate
2025-02-13, move-in 2025-02-15, invoice total 280.00. -/
theorem feb_split_eval :
    calculate_split 280 ⟨2025, 2, 1⟩ ⟨2025, 2, 28⟩ ⟨2025, 2, 13⟩ ⟨2025, 2, 15⟩ =
      Except.ok ⟨28, 10, 13, 1, 14, 130, 10, 140⟩ := by
  unfold calculate_split
  rw [if_neg (by decide), if_neg (by decide), if_neg (by decide)]
  refine congrArg Except.ok ?_
  simp only [SplitResult.mk.injEq]
  norm_num [subDays, toOrdinal, daysBeforeYear, daysBeforeMonth, daysInMonth, isLeap,
    ceil10, Rat.ceil]

/-- C1: the quarterly resolver does not search both candidate years.  For
the in-range example `resolve_period(date(2025,2,10), quarterly start_day 1)`
it does return `[2025-01-01, 2025-03-31]`, but for an invoice date in the
fourth quarter (2025-11-15) the anchor loop evaluates
`date(year, 13, start_day)` (the guard on line 275 is `quarter_month <= 10`
instead of `< 10`), raises, and the handler returns the 89-day fallback
`(invoice_date, invoice_date + 89 days)` instead of the anchored period
`[2025-10-01, 2025-12-31]`; the previous-year search is unreachable. -/
theorem C1_quarterly_fourth_quarter_falls_back :
    calculate_invoice_period ⟨2025, 2, 10⟩ "quarterly" 1 = (⟨2025, 1, 1⟩, ⟨2025, 3, 31⟩) ∧
    calculate_invoice_period ⟨2025, 11, 15⟩ "quarterly" 1 = (⟨2025, 11, 15⟩, ⟨2026, 2, 12⟩) ∧
    calculate_invoice_period ⟨2025, 11, 15⟩ "quarterly" 1 ≠ (⟨2025, 10, 1⟩, ⟨2025, 12, 31⟩) ∧
    calculate_invoice_period ⟨2025, 1, 3⟩ "quarterly" 5 = (⟨2025, 1, 3⟩, ⟨2025, 4, 2⟩) := by
  refine ⟨by decide, by decide, by decide, by decide⟩

/-- C2 counterexample: for the non-billable frequency "none" the resolver
does not fail; it returns the well-formed fallback billing period
`[invoice_date, invoice_date + 89 days]`. -/
theorem C2_counterexample_returns_period :
    calculate_invoice_period ⟨2025, 2, 10⟩ "none" 1 = (⟨2025, 2, 10⟩, ⟨2025, 5, 10⟩) ∧
    dle ⟨2025, 2, 10⟩ ⟨2025, 5, 10⟩ = true := by
  refine ⟨by decide, by decide⟩

/-- C2 (amended): for every frequency outside {monthly, quarterly} the
resolver raises the unknown-frequency error internally, but the
surrounding handler swallows it and returns the fallback period
`(invoice_date, invoice_date + 89 days)` rather than failing. -/
theorem C2_unsupported_frequency_fallback (idate : Date) (frequency : String)
    (start_day : Nat) (hm : frequency ≠ "monthly") (hq : frequency ≠ "quarterly") :
    calculate_invoice_period idate frequency start_day = (idate, addDays idate 89) := by
  simp [calculate_invoice_period, periodBody, hm, hq]

/-- C2 witness: the amended statement at the frequency "none" of contact
code /R and the invoice date 2025-02-10. -/
theorem C2_unsupported_frequency_fallback_witness :
    calculate_invoice_period ⟨2025, 2, 10⟩ "none" 1 = (⟨2025, 2, 10⟩, addDays ⟨2025, 2, 10⟩ 89) :=
  C2_unsupported_frequency_fallback ⟨2025, 2, 10⟩ "none" 1 (by decide) (by decide)

/-- C3: incrementing the sequence digit 9 does not fail; the code widens
the digit to the two characters "10", producing "ABC0012310/1A", a string
the repository's own account-number grammar rejects.  Digits 0-8 are
incremented in place as the claim states ("ANP001042/3B" becomes
"ANP001043/3B", which still parses). -/
theorem C3_increment_widens_at_nine :
    increment_account_sequence "ABC001239/1A" = some "ABC0012310/1A" ∧
    parse_account_number "ABC0012310/1A" = none ∧
    increment_account_sequence "ANP001042/3B" = some "ANP001043/3B" ∧
    parse_account_number "ANP001043/3B" = some ("ANP00104", "3", "/3B") := by
  refine ⟨by decide, by decide, by decide, by decide⟩

/-- C4: whenever the split calculation succeeds, the three day counts are
the inclusive counts of the claim and they sum exactly to the total day
count of the period. -/
theorem C4_day_counts_sum (total_amount : Rat) (period_start period_end : Date)
    (vacate_date move_in_date : Date) (r : SplitResult)
    (h : calculate_split total_amount period_start period_end vacate_date move_in_date
      = .ok r) :
    r.previous_days = subDays vacate_date period_start + 1 ∧
    r.void_days = subDays move_in_date vacate_date - 1 ∧
    r.new_days = subDays period_end move_in_date + 1 ∧
    r.total_days = subDays period_end period_start + 1 ∧
    r.previous_days + r.void_days + r.new_days = r.total_days := by
  unfold calculate_split at h
  split at h
  · exact absurd h (by simp)
  · split at h
    · exact absurd h (by simp)
    · split at h
      · exact absurd h (by simp)
      · cases h
        refine ⟨rfl, rfl, rfl, rfl, ?_⟩
        simp only [subDays]
        ring

/-- C4 witness: the 28-day February 2025 period split at vacate
2025-02-13 and move-in 2025-02-15 gives day counts 13 + 1 + 14 = 28. -/
theorem C4_day_counts_sum_witness :
    calculate_split 280 ⟨2025, 2, 1⟩ ⟨2025, 2, 28⟩ ⟨2025, 2, 13⟩ ⟨2025, 2, 15⟩ =
      Except.ok ⟨28, 10, 13, 1, 14, 130, 10, 140⟩ ∧
    (13 : Int) + 1 + 14 = 28 := by
  refine ⟨feb_split_eval, ?_⟩
  exact (C4_day_counts_sum 280 ⟨2025, 2, 1⟩ ⟨2025, 2, 28⟩ ⟨2025, 2, 13⟩ ⟨2025, 2, 15⟩
    ⟨28, 10, 13, 1, 14, 130, 10, 140⟩ feb_split_eval).2.2.2.2

/-- C5: whenever the split calculation succeeds, the daily rate is the
unrounded `invoice_total / total_days` and each bucket amount is the raw
amount `daily_rate * days` rounded up to the nearest 0.10 independently
(`ceil(amount * 10) / 10`); moreover the claim's boundary figures hold:
a daily rate of 10.03 over 13 days gives the raw amount 130.39, which
rounds up to 130.4.  (Python float arithmetic is modelled exactly over
the rationals.) -/
theorem C5_bucket_rounding :
    (∀ (total_amount : Rat) (period_start period_end vacate_date move_in_date : Date)
      (r : SplitResult),
      calculate_split total_amount period_start period_end vacate_date move_in_date
        = .ok r →
      r.daily_rate = total_amount / (r.total_days : Rat) ∧
      r.previous_amount = ceil10 (r.daily_rate * (r.previous_days : Rat)) ∧
      r.void_amount = ceil10 (r.daily_rate * (r.void_days : Rat)) ∧
      r.new_amount = ceil10 (r.daily_rate * (r.new_days : Rat))) ∧
    (1003 : Rat) / 100 * 13 = 13039 / 100 ∧
    ceil10 ((1003 : Rat) / 100 * 13) = 1304 / 10 := by
  refine ⟨?_, by norm_num, by norm_num [ceil10, Rat.ceil]⟩
  intro total_amount period_start period_end vacate_date move_in_date r h
  unfold calculate_split at h
  split at h
  · exact absurd h (by simp)
  · split at h
    · exact absurd h (by simp)
    · split at h
      · exact absurd h (by simp)
      · cases h
        exact ⟨rfl, rfl, rfl, rfl⟩

/-- C5 witness: total 280.00 over the 28-day period with buckets of
13 / 1 / 14 days yields the exactly rounded amounts 130.0, 10.0, 140.0,
and the new-occupier amount satisfies the rounding formula. -/
theorem C5_bucket_rounding_witness :
    calculate_split 280 ⟨2025, 2, 1⟩ ⟨2025, 2, 28⟩ ⟨2025, 2, 13⟩ ⟨2025, 2, 15⟩ =
      Except.ok ⟨28, 10, 13, 1, 14, 130, 10, 140⟩ ∧
    (140 : Rat) = ceil10 ((10 : Rat) * (((14 : Int) : Rat))) := by
  refine ⟨feb_split_eval, ?_⟩
  exact (C5_bucket_rounding.1 280 ⟨2025, 2, 1⟩ ⟨2025, 2, 28⟩ ⟨2025, 2, 13⟩ ⟨2025, 2, 15⟩
    ⟨28, 10, 13, 1, 14, 130, 10, 140⟩ feb_split_eval).2.2.2

/-- C6: the split calculator checks vacate-in-period first, then
move-in-in-period, then strict ordering, and each violation yields its
own distinct error; with equal move-in and vacate dates the result is
the ordering-violation error, hence no allocation record exists. -/
theorem C6_precondition_order (total_amount : Rat)
    (period_start period_end vacate_date move_in_date : Date) :
    ((dlt vacate_date period_start || dlt period_end vacate_date) = true →
      calculate_split total_amount period_start period_end vacate_date move_in_date
        = .error .vacateOutOfPeriod) ∧
    ((dlt vacate_date period_start || dlt period_end vacate_date) = false →
      (dlt move_in_date period_start || dlt period_end move_in_date) = true →
      calculate_split total_amount period_start period_end vacate_date move_in_date
        = .error .moveInOutOfPeriod) ∧
    ((dlt vacate_date period_start || dlt period_end vacate_date) = false →
      (dlt move_in_date period_start || dlt period_end move_in_date) = false →
      dle move_in_date vacate_date = true →
      calculate_split total_amount period_start period_end vacate_date move_in_date
        = .error .orderingViolation) ∧
    (SplitError.vacateOutOfPeriod ≠ SplitError.moveInOutOfPeriod ∧
     SplitError.vacateOutOfPeriod ≠ SplitError.orderingViolation ∧
     SplitError.moveInOutOfPeriod ≠ SplitError.orderingViolation) := by
  refine ⟨?_, ?_, ?_, by decide, by decide, by decide⟩ <;>
    intros <;> simp [calculate_split, *]

/-- C6 witness: with move-in equal to vacate (2025-02-13, inside the
February 2025 period) the result is the ordering-violation error. -/
theorem C6_precondition_order_witness :
    calculate_split 280 ⟨2025, 2, 1⟩ ⟨2025, 2, 28⟩ ⟨2025, 2, 13⟩ ⟨2025, 2, 13⟩ =
      Except.error SplitError.orderingViolation :=
  (C6_precondition_order 280 ⟨2025, 2, 1⟩ ⟨2025, 2, 28⟩ ⟨2025, 2, 13⟩
    ⟨2025, 2, 13⟩).2.2.1 (by decide) (by decide) (by decide)

/-- C10 counterexample: the two billing tables do not disagree on the
payment-type codes /1C, /A, /B; both map each of them to a quarterly
default schedule. -/
theorem C10_counterexample_payment_codes_agree :
    (constantsLookup "/1C").map CSched.frequency = some "quarterly" ∧
    (splitterLookup "/1C").map SSched.frequency = some "quarterly" ∧
    (constantsLookup "/A").map CSched.frequency = some "quarterly" ∧
    (splitterLookup "/A").map SSched.frequency = some "quarterly" ∧
    (constantsLookup "/B").map CSched.frequency = some "quarterly" ∧
    (splitterLookup "/B").map SSched.frequency = some "quarterly" := by
  refine ⟨by decide, by decide, by decide, by decide, by decide, by decide⟩

/-- C10 (amended): the two copies of the table are divergent, but only in
their domains: the constants.py table defines schedules for /P, /Q, /R,
/S, /CR and /LH that the splitter's inline table lacks (so, e.g., /CR
resolves to a quarterly schedule through constants.py and to no schedule
at all through the splitter), while on every code the inline table does
define - including the payment-type codes /1C, /A, /B - the two tables
agree on both frequency and start day. -/
theorem C10_tables_divergent_only_in_domain :
    (constantsLookup "/CR").isSome = true ∧
    splitterLookup "/CR" = none ∧
    (constantsLookup "/P").map CSched.frequency = some "irregular" ∧
    splitterLookup "/P" = none ∧
    splitterSchedules.all agreesOn = true := by
  refine ⟨by decide, by decide, by decide, by decide, by decide⟩

/-- Helper: a month always has at least 28 days. -/
theorem daysInMonth_ge (y m : Nat) : 28 ≤ daysInMonth y m := by
  unfold daysInMonth
  split
  · split <;> omega
  · split <;> omega

/-- Helper: the date constructor succeeds on a valid triple. -/
theorem mkDate_eq_some (y m d : Nat) (h : validDate ⟨y, m, d⟩ = true) :
    mkDate y m d = some ⟨y, m, d⟩ := by
  simp [mkDate, h]

/-- Helper: componentwise validity criterion for a date triple with a
day at most 28. -/
theorem validDate_of_le28 (y m d : Nat) (h1 : 1 ≤ y) (h2 : y ≤ 9999)
    (h3 : 1 ≤ m) (h4 : m ≤ 12) (h5 : 1 ≤ d) (h6 : d ≤ 28) :
    validDate ⟨y, m, d⟩ = true := by
  have := daysInMonth_ge y m
  simp only [validDate, Bool.and_eq_true, decide_eq_true_eq]
  omega

/-- C8: for every valid invoice date (in a year with valid neighbours)
and every monthly start day found in the repository's schedule tables
(all are at most 28), the resolved period starts on `start_day` of the
invoice's own month when `invoice_date.day >= start_day` and on
`start_day` of the previous month otherwise (with the December/January
rollover), and ends on the day immediately before the next month's
`start_day`. -/
theorem C8_monthly_resolution (idate : Date) (start_day : Nat)
    (hv : validDate idate = true) (hy1 : 2 ≤ idate.year) (hy2 : idate.year ≤ 9998)
    (hs1 : 1 ≤ start_day) (hs28 : start_day ≤ 28) :
    ∃ ps : Date,
      ps = (if start_day ≤ idate.day then ⟨idate.year, idate.month, start_day⟩
            else if idate.month = 1 then ⟨idate.year - 1, 12, start_day⟩
            else ⟨idate.year, idate.month - 1, start_day⟩) ∧
      calculate_invoice_period idate "monthly" start_day =
        (ps, predDate (if ps.month = 12 then ⟨ps.year + 1, 1, start_day⟩
                       else ⟨ps.year, ps.month + 1, start_day⟩)) := by
  obtain ⟨y, m, d⟩ := idate
  simp only [validDate, Bool.and_eq_true, decide_eq_true_eq] at hv
  simp only at hy1 hy2 ⊢
  refine ⟨_, rfl, ?_⟩
  have hcalc : calculate_invoice_period ⟨y, m, d⟩ "monthly" start_day =
      (monthlyBody ⟨y, m, d⟩ start_day).getD (⟨y, m, d⟩, addDays ⟨y, m, d⟩ 89) := by
    simp [calculate_invoice_period, periodBody]
  rw [hcalc]
  by_cases hd : start_day ≤ d
  · rw [monthlyBody]
    simp only [hd, if_true]
    rw [mkDate_eq_some y m start_day (validDate_of_le28 y m start_day (by omega)
      (by omega) (by omega) (by omega) hs1 hs28)]
    by_cases hm : m = 12
    · subst hm
      simp only [Option.bind_eq_bind, Option.some_bind, if_pos rfl]
      rw [mkDate_eq_some (y + 1) 1 start_day (validDate_of_le28 (y + 1) 1 start_day
        (by omega) (by omega) (by omega) (by omega) hs1 hs28)]
      simp [hd]
    · simp only [Option.bind_eq_bind, Option.some_bind, if_neg hm]
      rw [mkDate_eq_some y (m + 1) start_day (validDate_of_le28 y (m + 1) start_day
        (by omega) (by omega) (by omega) (by omega) hs1 hs28)]
      simp [hd, hm]
  · rw [monthlyBody]
    simp only [hd, if_false]
    by_cases h1 : m = 1
    · subst h1
      simp only [if_pos rfl]
      rw [mkDate_eq_some (y - 1) 12 start_day (validDate_of_le28 (y - 1) 12 start_day
        (by omega) (by omega) (by omega) (by omega) hs1 hs28)]
      simp only [Option.bind_eq_bind, Option.some_bind, if_pos rfl]
      rw [mkDate_eq_some (y - 1 + 1) 1 start_day (validDate_of_le28 (y - 1 + 1) 1 start_day
        (by omega) (by omega) (by omega) (by omega) hs1 hs28)]
      simp [hd]
    · simp only [if_neg h1]
      rw [mkDate_eq_some y (m - 1) start_day (validDate_of_le28 y (m - 1) start_day
        (by omega) (by omega) (by omega) (by omega) hs1 hs28)]
      have hm12 : ¬ (m - 1 = 12) := by omega
      simp only [Option.bind_eq_bind, Option.some_bind, if_neg hm12]
      rw [mkDate_eq_some y (m - 1 + 1) start_day (validDate_of_le28 y (m - 1 + 1) start_day
        (by omega) (by omega) (by omega) (by omega) hs1 hs28)]
      simp [hd, h1, hm12]

/-- C8 witness: the two concrete resolutions of the claim, derived from
the general statement: 2025-02-10 with monthly start day 1 resolves to
February 2025, and 2025-01-15 with monthly start day 16 rolls over the
year to the period 2024-12-16 to 2025-01-15. -/
theorem C8_monthly_resolution_witness :
    calculate_invoice_period ⟨2025, 2, 10⟩ "monthly" 1 = (⟨2025, 2, 1⟩, ⟨2025, 2, 28⟩) ∧
    calculate_invoice_period ⟨2025, 1, 15⟩ "monthly" 16 = (⟨2024, 12, 16⟩, ⟨2025, 1, 15⟩) := by
  constructor
  · obtain ⟨ps, hps, h2⟩ := C8_monthly_resolution ⟨2025, 2, 10⟩ 1 (by decide)
      (by decide) (by decide) (by decide) (by decide)
    subst hps
    exact h2.trans (by decide)
  · obtain ⟨ps, hps, h2⟩ := C8_monthly_resolution ⟨2025, 1, 15⟩ 16 (by decide)
      (by decide) (by decide) (by decide) (by decide)
    subst hps
    exact h2.trans (by decide)

/-- Helper: the core matcher succeeds exactly on lists of the structural
format. -/
theorem parseCore_isSome (cs : List Char) :
    (parseCore cs).isSome = specFormat cs := by
  rcases cs with _ | ⟨a1, _ | ⟨a2, _ | ⟨a3, _ | ⟨d1, _ | ⟨d2, _ | ⟨d3, _ | ⟨d4,
    _ | ⟨d5, _ | ⟨d9, _ | ⟨sl, rest⟩⟩⟩⟩⟩⟩⟩⟩⟩⟩ <;> try rfl
  by_cases hC : (isUpperAZ a1 && isUpperAZ a2 && isUpperAZ a3 && isDigit09 d1 &&
      isDigit09 d2 && isDigit09 d3 && isDigit09 d4 && isDigit09 d5 && isDigit09 d9 &&
      decide (sl = '/') && decide (rest ≠ []) && rest.all isUpperOrDigit) = true
  · rw [show parseCore (a1 :: a2 :: a3 :: d1 :: d2 :: d3 :: d4 :: d5 :: d9 :: sl :: rest)
        = some (⟨[a1, a2, a3, d1, d2, d3, d4, d5]⟩, ⟨[d9]⟩, ⟨'/' :: rest⟩) from by
      rw [parseCore]
      exact if_pos hC]
    rw [Option.isSome_some]
    symm
    simp only [Bool.and_eq_true, decide_eq_true_eq] at hC
    simp only [specFormat, List.take_succ_cons, List.take_zero, List.drop_succ_cons,
      List.drop_zero, List.all_cons, List.all_nil, List.length_cons,
      Bool.and_eq_true, decide_eq_true_eq, Bool.and_true, and_true]
    refine ⟨⟨⟨by omega, ?_, ?_, ?_⟩, ?_, ?_, ?_, ?_, ?_⟩, ⟨⟨?_, ?_⟩, ?_⟩, ?_⟩ <;> tauto
  · rw [show parseCore (a1 :: a2 :: a3 :: d1 :: d2 :: d3 :: d4 :: d5 :: d9 :: sl :: rest)
        = none from by
      rw [parseCore]
      exact if_neg hC]
    rw [Option.isSome_none]
    symm
    rw [← Bool.not_eq_true]
    intro hS
    apply hC
    simp only [specFormat, List.take_succ_cons, List.take_zero, List.drop_succ_cons,
      List.drop_zero, List.all_cons, List.all_nil, List.length_cons,
      Bool.and_eq_true, decide_eq_true_eq, Bool.and_true, and_true] at hS
    simp only [Bool.and_eq_true, decide_eq_true_eq]
    tauto

/-- Helper: what a successful core match returns: the three groups
concatenate back to the matched list, the base has eight characters, the
sequence digit one, and the contact code (slash included) at least two. -/
theorem parseCore_parts (cs : List Char) (b d c : String)
    (h : parseCore cs = some (b, d, c)) :
    b.toList ++ d.toList ++ c.toList = cs ∧
    b.length = 8 ∧ d.length = 1 ∧ 2 ≤ c.length := by
  rcases cs with _ | ⟨a1, _ | ⟨a2, _ | ⟨a3, _ | ⟨d1, _ | ⟨d2, _ | ⟨d3, _ | ⟨d4,
    _ | ⟨d5, _ | ⟨d9, _ | ⟨sl, rest⟩⟩⟩⟩⟩⟩⟩⟩⟩⟩ <;>
    try exact Option.noConfusion h
  rw [parseCore, ite_eq_iff] at h
  rcases h with ⟨hcond, h⟩ | ⟨-, h⟩
  · simp only [Option.some.injEq, Prod.mk.injEq] at h
    obtain ⟨rfl, rfl, rfl⟩ := h
    simp only [Bool.and_eq_true, decide_eq_true_eq] at hcond
    obtain ⟨⟨⟨-, hsl⟩, hne⟩, -⟩ := hcond
    subst hsl
    refine ⟨rfl, rfl, rfl, ?_⟩
    cases rest with
    | nil => exact absurd rfl hne
    | cons x xs =>
      show 2 ≤ ('/' :: x :: xs).length
      simp
  · exact absurd h (by simp)

/-- C7 counterexample: the parser accepts a contact code of three
characters after the slash ("/ABC" has length 4, beyond the claimed 1-2
characters), and it accepts a string with one trailing newline, whose
parts then concatenate to a string different from the original input,
so strict round-trip fails there too. -/
theorem C7_counterexample_long_contact_code :
    parse_account_number "ABC123451/ABC" = some ("ABC12345", "1", "/ABC") ∧
    ("/ABC" : String).length = 4 ∧
    parse_account_number "ABC123451/AB\n" = some ("ABC12345", "1", "/AB") ∧
    "ABC12345" ++ "1" ++ "/AB" ≠ "ABC123451/AB\n" := by
  refine ⟨by decide, by decide, by decide, by decide⟩

/-- C7 (amended): parsing succeeds exactly on strings that, after
removing at most one trailing newline, consist of three uppercase
letters, five digits, one digit, and a slash followed by one or more
uppercase-or-digit characters; on success the three returned parts
concatenate to the input with any single trailing newline removed, the
base having eight characters, the sequence digit one, and the contact
code at least two (slash included). -/
theorem C7_parse_characterization :
    (∀ s : String, (parse_account_number s).isSome = specFormat (stripNl s.toList)) ∧
    (∀ s b d c : String, parse_account_number s = some (b, d, c) →
      b ++ d ++ c = String.mk (stripNl s.toList) ∧
      b.length = 8 ∧ d.length = 1 ∧ 2 ≤ c.length) := by
  constructor
  · intro s
    exact parseCore_isSome (stripNl s.toList)
  · intro s b d c h
    obtain ⟨hcat, h8, h1, h2⟩ := parseCore_parts (stripNl s.toList) b d c h
    refine ⟨?_, h8, h1, h2⟩
    apply String.ext
    show (b ++ d ++ c).data = stripNl s.toList
    rw [String.data_append, String.data_append]
    exact hcat

/-- C7 witness: the characterization applied to the repository's
documented example account number "ANP001042/3B". -/
theorem C7_parse_characterization_witness :
    parse_account_number "ANP001042/3B" = some ("ANP00104", "2", "/3B") ∧
    "ANP00104" ++ "2" ++ "/3B" = String.mk (stripNl "ANP001042/3B".toList) ∧
    specFormat (stripNl "ANP001042/3B".toList) = true := by
  refine ⟨by decide, ?_, ?_⟩
  · exact (C7_parse_characterization.2 "ANP001042/3B" "ANP00104" "2" "/3B" (by decide)).1
  · rw [← C7_parse_characterization.1 "ANP001042/3B"]
    decide

/-- C9: both scaling loops apply the same rule.  With scale factor
`new_amount / original_total`, the scaled line amount is the original
line amount times the factor rounded to two decimal places, the unit
amount is the new line amount divided by the quantity rounded to two
decimal places, the description gains the period label, account code
and tax type are carried unchanged, each optional field is carried
exactly when truthy (present and non-empty/non-zero) in the source and
is otherwise absent, and the created item equals the modified item
except for the line-item id, which only the modified one keeps; at the
list level the created invoice's items are the modified invoice's items
with the id dropped. -/
theorem C9_line_item_scaling :
    (∀ (original_total new_amount : Rat) (period_description : String) (li : LineItem),
      original_total ≠ 0 →
      (modifyLineItem (new_amount / original_total) period_description li).lineAmount
          = round2 (li.lineAmount * (new_amount / original_total)) ∧
      (modifyLineItem (new_amount / original_total) period_description li).unitAmount
          = round2 ((modifyLineItem (new_amount / original_total) period_description
              li).lineAmount / li.quantity.getD 1) ∧
      (modifyLineItem (new_amount / original_total) period_description li).description
          = li.description ++ " (" ++ period_description ++ ")" ∧
      (modifyLineItem (new_amount / original_total) period_description li).accountCode
          = li.accountCode ∧
      (modifyLineItem (new_amount / original_total) period_description li).taxType
          = li.taxType ∧
      (modifyLineItem (new_amount / original_total) period_description li).itemCode
          = (if truthyStr li.itemCode then li.itemCode else none) ∧
      (modifyLineItem (new_amount / original_total) period_description li).taxAmount
          = (if truthyRat li.taxAmount then li.taxAmount else none) ∧
      (modifyLineItem (new_amount / original_total) period_description li).discountRate
          = (if truthyRat li.discountRate then li.discountRate else none) ∧
      (modifyLineItem (new_amount / original_total) period_description li).tracking
          = (if li.tracking ≠ [] then li.tracking else []) ∧
      createLineItem (new_amount / original_total) period_description li
          = { modifyLineItem (new_amount / original_total) period_description li with
              lineItemID := none }) ∧
    (∀ (items : List LineItem) (original_total new_amount : Rat)
      (period_description : String),
      create_new_invoice_items items original_total new_amount period_description =
        (modify_existing_invoice_items items original_total new_amount
          period_description).map (fun o => { o with lineItemID := none })) := by
  constructor
  · intro original_total new_amount period_description li h
    exact ⟨rfl, rfl, rfl, rfl, rfl, rfl, rfl, rfl, rfl, rfl⟩
  · intro items original_total new_amount period_description
    simp only [create_new_invoice_items, modify_existing_invoice_items, List.map_map]
    rfl

/-- C9 witness: the scaling rule at the concrete sample line item with
original total 280.00 and previous-occupier amount 130.00: the line
amount scales to exactly 130.00 and the source's zero (falsy) tax
amount is dropped rather than carried, while the created item equals
the modified item minus the line-item id. -/
theorem C9_line_item_scaling_witness :
    (modifyLineItem ((130 : Rat) / 280) "Period: 2025-02-01 to 2025-02-13"
        sampleItem).lineAmount
      = round2 (sampleItem.lineAmount * ((130 : Rat) / 280)) ∧
    round2 (sampleItem.lineAmount * ((130 : Rat) / 280)) = 130 ∧
    (modifyLineItem ((130 : Rat) / 280) "Period: 2025-02-01 to 2025-02-13"
        sampleItem).taxAmount = none ∧
    createLineItem ((130 : Rat) / 280) "Period: 2025-02-01 to 2025-02-13" sampleItem
      = { modifyLineItem ((130 : Rat) / 280) "Period: 2025-02-01 to 2025-02-13"
            sampleItem with lineItemID := none } := by
  have h := C9_line_item_scaling.1 280 130 "Period: 2025-02-01 to 2025-02-13"
    sampleItem (by norm_num)
  refine ⟨h.1, ?_, ?_, h.2.2.2.2.2.2.2.2.2⟩
  · norm_num [sampleItem, round2, roundHalfEven, Rat.floor]
  · rw [h.2.2.2.2.2.2.1]
    rfl

end XeroSplit